import Mathlib

/-!
Verification of the slam3d point-cloud sensor and the g2o orientation-prior
edge against their natural-language specification.

The development shallowly embeds the C++ sources:
  slam3d/sensor/pcl/PointCloudSensor.cpp  (downsample, removeOutliers,
    transform, getAccumulatedCloud, createConstraint, align, doICP, doNDT,
    buildMap)
  src/PointCloudSensor.cpp                (the older calculateTransform
    variant of the same sensor)
  slam3d/solver/g2o/edge_orientation_prior.cpp (EdgeOrientationPrior)

Real-valued quantities (Eigen doubles and floats) are embedded as rationals;
the external PCL registration algorithms (GICP, NDT) are modelled as oracle
parameters because their numerical output is not determined by this
repository, while the wiring around them (input roles, convergence and
fitness gating) is embedded faithfully from the source.
-/

namespace Slam3d

/-- A pcl point (the x, y, z fields of PointType) as a 3-vector of rationals. -/
abbrev Point : Type := Fin 3 → ℚ

/-- A pcl point cloud: the ordered list of its points. -/
abbrev PointCloud : Type := List Point

/-- An Eigen isometry (slam3d::Transform = Eigen::Isometry3d): a linear part
and a translation.  The source composes, inverts and applies these; the
rotation-ness of the linear part is never checked by the code. -/
structure Transform where
  linear : Matrix (Fin 3) (Fin 3) ℚ
  translation : Point

/-- Transform::Identity. -/
instance : One Transform := ⟨⟨1, 0⟩⟩

/-- Composition of isometries, as Eigen performs it on homogeneous matrices. -/
instance : Mul Transform :=
  ⟨fun a b => ⟨a.linear * b.linear, a.linear.mulVec b.translation + a.translation⟩⟩

/-- Eigen Isometry3d::inverse: the linear part is transposed (the isometry
fast path) and the translation is mapped accordingly. -/
def Transform.inverse (t : Transform) : Transform :=
  ⟨t.linear.transpose, -(t.linear.transpose.mulVec t.translation)⟩

/-- Application of a transform to a point (one row of
pcl::transformPointCloud). -/
def Transform.apply (t : Transform) (p : Point) : Point :=
  t.linear.mulVec p + t.translation

/-- Eigen dense-matrix inverse, written with the adjugate formula; on an
invertible matrix this is the usual inverse, and the (never valid in the
source) singular case is sent to 0. -/
def matInv {n : ℕ} (A : Matrix (Fin n) (Fin n) ℚ) : Matrix (Fin n) (Fin n) ℚ :=
  if A.det = 0 then 0 else A.det⁻¹ • A.adjugate

/-- PointCloudSensor::transform: pcl::transformPointCloud applies the
transform to every point of the cloud. -/
def transform (source : PointCloud) (tf : Transform) : PointCloud :=
  source.map tf.apply

/-- Voxel key of a point: the integer cell of the cubic grid with side
`leaf` that contains it. -/
def voxelKey (leaf : ℚ) (p : Point) : ℤ × ℤ × ℤ :=
  (⌊p 0 / leaf⌋, ⌊p 1 / leaf⌋, ⌊p 2 / leaf⌋)

/-- Centroid of a list of points. -/
def centroid (pts : PointCloud) : Point :=
  fun i => (pts.map (fun p => p i)).sum / pts.length

/-- Modelled from the spec: pcl::VoxelGrid (an external library filter, not
part of this repository) replaces the points of each non-empty cubic voxel
of side `leaf` by their centroid. -/
def voxelGrid (cloud : PointCloud) (leaf : ℚ) : PointCloud :=
  ((cloud.map (voxelKey leaf)).dedup).map
    (fun k => centroid (cloud.filter (fun p => decide (voxelKey leaf p = k))))

/-- PointCloudSensor::downsample: a fresh empty cloud, filled by the voxel
grid filter only when the input is non-empty. -/
def downsample (cloud : PointCloud) (leaf_size : ℚ) : PointCloud :=
  if 0 < cloud.length then voxelGrid cloud leaf_size else []

/-- Squared euclidean distance of two points. -/
def dist2 (p q : Point) : ℚ :=
  ∑ i, (p i - q i) ^ 2

/-- Modelled from the spec: pcl::RadiusOutlierRemoval (external library)
keeps a point exactly when at least `min_neighbors` other points of the
cloud lie within `radius` of it. -/
def radiusOutlierRemoval (cloud : PointCloud) (radius : ℚ) (min_neighbors : ℕ) : PointCloud :=
  (cloud.enum.filter (fun pr =>
    decide (min_neighbors ≤
      (cloud.enum.filter (fun qr =>
        decide (qr.1 ≠ pr.1 ∧ dist2 qr.2 pr.2 ≤ radius ^ 2))).length))).map Prod.snd

/-- PointCloudSensor::removeOutliers: a fresh empty cloud, filled by the
radius outlier filter only when the input is non-empty. -/
def removeOutliers (cloud : PointCloud) (radius : ℚ) (min_neighbors : ℕ) : PointCloud :=
  if 0 < cloud.length then radiusOutlierRemoval cloud radius min_neighbors else []

/-- Error kinds thrown by the sensor routines: BadMeasurementType from the
dynamic casts, NoMatch (with its message) from registration. -/
inductive SlamError where
  | badMeasurementType
  | noMatch (reason : String)
deriving DecidableEq

/-- A PointCloudMeasurement: the owned cloud plus the fixed sensor pose
recorded in the Measurement base class. -/
structure PointCloudMeasurement where
  cloud : PointCloud
  sensor_pose : Transform

/-- A slam3d Measurement, a base-class pointer at runtime: either a
PointCloudMeasurement or a measurement of any other concrete type (of which
the sensor code only ever reads the sensor pose). -/
inductive Measurement where
  | pointCloud (m : PointCloudMeasurement)
  | other (sensor_pose : Transform)

/-- Measurement::getSensorPose. -/
def Measurement.sensorPose : Measurement → Transform
  | .pointCloud m => m.sensor_pose
  | .other sp => sp

/-- Measurement::getInverseSensorPose: the inverse of the stored sensor
pose. -/
def Measurement.inverseSensorPose (m : Measurement) : Transform :=
  m.sensorPose.inverse

/-- Whether the dynamic cast to PointCloudMeasurement succeeds. -/
def Measurement.isPointCloud : Measurement → Bool
  | .pointCloud _ => true
  | .other _ => false

/-- The owned cloud of a point-cloud measurement (empty for the other
kinds, on which the accumulation code never reads it). -/
def Measurement.cloudOrEmpty : Measurement → PointCloud
  | .pointCloud pc => pc.cloud
  | .other _ => []

/-- The registration algorithm selected in a configuration (the GICP /
else-NDT dispatch in align). -/
inductive Algorithm where
  | GICP
  | NDT
deriving DecidableEq

/-- RegistrationParameters of the scan sensor, with the fields the source
reads.  Counters are naturals, all other magnitudes rationals. -/
structure RegistrationParameters where
  point_cloud_density : ℚ
  max_correspondence_distance : ℚ
  maximum_iterations : ℕ
  max_fitness_score : ℚ
  transformation_epsilon : ℚ
  euclidean_fitness_epsilon : ℚ
  correspondence_randomness : ℕ
  maximum_optimizer_iterations : ℕ
  rotation_epsilon : ℚ
  outlier_ratio : ℚ
  step_size : ℚ
  resolution : ℚ
  registration_algorithm : Algorithm

/-- The arguments a registration run hands to the pcl library object:
setInputSource, setInputTarget and the initial guess of align. -/
structure LibCall where
  inputSource : PointCloud
  inputTarget : PointCloud
  guess : Transform

/-- What the library object reports after align: getFinalTransformation,
hasConverged, and getFitnessScore(max_correspondence_distance). -/
structure RegResult where
  finalTransformation : Transform
  converged : Bool
  fitnessScore : ℚ

/-- The external registration library (pclomp GICP or NDT): its numerical
behaviour is outside this repository, so a run is an oracle from the call
and the configured parameters to the reported result. -/
def Registration : Type :=
  LibCall → RegistrationParameters → RegResult

/-- A PointCloudSensor: its name, the registration configurations and map
parameters set on it, and the two library oracles it links against. -/
structure PointCloudSensor where
  mName : String
  mCoarseConfiguration : RegistrationParameters
  mFineConfiguration : RegistrationParameters
  mCovarianceScale : ℚ
  mMapResolution : ℚ
  mMapOutlierRadius : ℚ
  mMapOutlierNeighbors : ℕ
  gicpLibrary : Registration
  ndtLibrary : Registration

/-- The call doICP wires up: setInputSource(target), setInputTarget(source),
align(result, guess) — source and target are deliberately switched, the
pose-graph edge goes source to target but the library computes the
transform from its target input onto its source input. -/
def doICP_call (source target : PointCloud) (guess : Transform) : LibCall :=
  { inputSource := target, inputTarget := source, guess := guess }

/-- PointCloudSensor::doICP (the PCL >= 1.8.1 branch): run the GICP library
on the switched inputs, then gate on hasConverged and on the fitness score
against max_fitness_score. -/
def doICP (sensor : PointCloudSensor) (source target : PointCloud)
    (guess : Transform) (config : RegistrationParameters) :
    Except SlamError Transform :=
  let r := sensor.gicpLibrary (doICP_call source target guess) config
  let score := r.fitnessScore
  if r.converged = false ∨ score > config.max_fitness_score then
    Except.error (.noMatch "ICP failed with Fitness-Score above max_fitness_score")
  else
    Except.ok r.finalTransformation

/-- The call doNDT wires up: setInputSource(target), setInputTarget(source),
align(result, guess) — the same deliberate source/target switch as doICP. -/
def doNDT_call (source target : PointCloud) (guess : Transform) : LibCall :=
  { inputSource := target, inputTarget := source, guess := guess }

/-- PointCloudSensor::doNDT: run the NDT library on the switched inputs,
then gate on hasConverged and on the fitness score against
max_fitness_score. -/
def doNDT (sensor : PointCloudSensor) (source target : PointCloud)
    (guess : Transform) (config : RegistrationParameters) :
    Except SlamError Transform :=
  let r := sensor.ndtLibrary (doNDT_call source target guess) config
  let score := r.fitnessScore
  if r.converged = false ∨ score > config.max_fitness_score then
    Except.error (.noMatch "NDT failed with Fitness-Score above max_fitness_score")
  else
    Except.ok r.finalTransformation

/-- PointCloudSensor::align.  The C++ body declares
filtered_source/filtered_target from the raw clouds and then, inside the
point_cloud_density branch, declares same-named block-locals holding the
downsampled clouds; those block-locals die at the closing brace, so the
branch has no effect on what follows.  The unused let keeps that dead
computation visible. -/
def align (sensor : PointCloudSensor) (source target : PointCloudMeasurement)
    (guess : Transform) (config : RegistrationParameters) :
    Except SlamError Transform :=
  let filtered_source := source.cloud
  let filtered_target := target.cloud
  let _shadowed :=
    if 0 < config.point_cloud_density then
      (downsample source.cloud config.point_cloud_density,
       downsample target.cloud config.point_cloud_density)
    else (filtered_source, filtered_target)
  if filtered_target.length < 100 ∨ filtered_source.length < 100 then
    Except.error (.noMatch "Too few points after filtering, you may have to decrease point_cloud_density.")
  else if config.registration_algorithm = .GICP then
    doICP sensor filtered_source filtered_target guess config
  else
    doNDT sensor filtered_source filtered_target guess config

/-- An SE3Constraint as createConstraint builds it.  Modelled from the spec:
the class itself lives in slam3d/core/Types.hpp which is not under src/;
per the solver interface of the spec the third constructor argument is the
matrix the solver receives as information, and createConstraint fills it
with covariance.inverse(). -/
structure SE3Constraint where
  sensor : String
  relativePose : Transform
  information : Matrix (Fin 6) (Fin 6) ℚ

/-- PointCloudSensor::createConstraint: guess in sensor frame, dynamic cast
check, coarse alignment only for loops, fine alignment, result back in
robot frame, identity covariance scaled by mCovarianceScale and inverted
into the constraint. -/
def createConstraint (sensor : PointCloudSensor) (source target : Measurement)
    (odometry : Transform) (loop : Bool) :
    Except SlamError SE3Constraint :=
  let guess := source.inverseSensorPose * odometry * target.sensorPose
  match source, target with
  | .pointCloud sourceCloud, .pointCloud targetCloud => do
      let refined ←
        if loop then
          align sensor sourceCloud targetCloud guess sensor.mCoarseConfiguration
        else
          pure guess
      let icp_result ← align sensor sourceCloud targetCloud refined sensor.mFineConfiguration
      let tfm := sourceCloud.sensor_pose * icp_result * targetCloud.sensor_pose.inverse
      let covariance : Matrix (Fin 6) (Fin 6) ℚ := sensor.mCovarianceScale • 1
      pure { sensor := sensor.mName, relativePose := tfm, information := matInv covariance }
  | _, _ => Except.error .badMeasurementType

/-- A VertexObject as the sensor reads it: the mapper-corrected pose and the
attached measurement. -/
structure VertexObject where
  corrected_pose : Transform
  measurement : Measurement

/-- The loop body of getAccumulatedCloud, already oriented along the
reverse iteration of the vertex list: the accumulator grows by appending
each transformed cloud, and a non-point-cloud measurement throws
BadMeasurementType when the iteration reaches it. -/
def accumulateLoop : List VertexObject → Except SlamError PointCloud
  | [] => Except.ok []
  | v :: rest =>
    match v.measurement with
    | .pointCloud pc => do
        let r ← accumulateLoop rest
        Except.ok (transform pc.cloud (v.corrected_pose * pc.sensor_pose) ++ r)
    | _ => Except.error .badMeasurementType

/-- PointCloudSensor::getAccumulatedCloud: iterate the vertex list from its
reverse iterator, transform every cloud by corrected_pose * sensor_pose and
concatenate. -/
def getAccumulatedCloud (vertices : List VertexObject) : Except SlamError PointCloud :=
  accumulateLoop vertices.reverse

/-- PointCloudSensor::buildMap: accumulate, remove outliers with the map
parameters, downsample with the map resolution. -/
def buildMap (sensor : PointCloudSensor) (vertices : List VertexObject) :
    Except SlamError PointCloud := do
  let accu ← getAccumulatedCloud vertices
  let cleaned := removeOutliers accu sensor.mMapOutlierRadius sensor.mMapOutlierNeighbors
  Except.ok (downsample cleaned sensor.mMapResolution)

/-- The GICPConfiguration of the older sensor (src/PointCloudSensor.cpp),
with the fields calculateTransform reads. -/
structure GICPConfiguration where
  point_cloud_density : ℚ
  max_correspondence_distance : ℚ
  maximum_iterations : ℕ
  max_fitness_score : ℚ
  transformation_epsilon : ℚ
  euclidean_fitness_epsilon : ℚ
  correspondence_randomness : ℕ
  maximum_optimizer_iterations : ℕ
  rotation_epsilon : ℚ

/-- The GICP library of the older sensor, again an oracle over the call and
the configured parameters. -/
def OldRegistration : Type :=
  LibCall → GICPConfiguration → RegResult

/-- The transform-with-covariance pair returned by the older
calculateTransform. -/
structure TransformWithCovariance where
  transform : Transform
  covariance : Matrix (Fin 6) (Fin 6) ℚ

/-- PointCloudSensor::calculateTransform of the older sensor: guess in
sensor frame, cast check, coarse-or-fine configuration, downsample both
clouds (effectively here), pre-shift the target cloud by the guess (the
old-PCL workaround, so the library call carries identity as its guess),
switched input roles, convergence and fitness gate, compose the library
result with the guess, and return the robot-frame transform with an
identity covariance. -/
def calculateTransform (lib : OldRegistration)
    (coarseConfig fineConfig : GICPConfiguration)
    (source target : Measurement) (odometry : Transform) (coarse : Bool) :
    Except SlamError TransformWithCovariance :=
  let guess := source.inverseSensorPose * odometry * target.sensorPose
  match source, target with
  | .pointCloud sourceCloud, .pointCloud targetCloud =>
    let config := if coarse then coarseConfig else fineConfig
    let filtered_source := downsample sourceCloud.cloud config.point_cloud_density
    let filtered_target := downsample targetCloud.cloud config.point_cloud_density
    let shifted_target := transform filtered_target guess
    let r := lib { inputSource := shifted_target, inputTarget := filtered_source, guess := 1 } config
    if r.converged = false ∨ r.fitnessScore > config.max_fitness_score then
      Except.error (.noMatch "ICP failed")
    else
      let icp_result := r.finalTransformation * guess
      Except.ok { transform := sourceCloud.sensor_pose * icp_result * targetCloud.sensor_pose.inverse,
                  covariance := 1 }
  | _, _ => Except.error .badMeasurementType

end Slam3d

namespace G2o

/-- An Eigen Isometry3, with the rotation part carried as the quaternion
that represents it (rationals admit no square roots, so the
rotation-matrix-to-quaternion conversions of the C++ become the identity in
this representation; the double-cover sign they may flip does not affect
any statement below). -/
structure Isometry3 where
  linear : Quaternion ℚ
  translation : Fin 3 → ℚ

/-- Rotation of a 3-vector by a (unit) quaternion, the action Eigen realises
through the rotation matrix. -/
def quatRotate (q : Quaternion ℚ) (v : Fin 3 → ℚ) : Fin 3 → ℚ :=
  let p : Quaternion ℚ := ⟨0, v 0, v 1, v 2⟩
  let r := q * p * star q
  ![r.imI, r.imJ, r.imK]

/-- Eigen Isometry3::inverse in the quaternion representation: the
transposed rotation is the conjugate quaternion. -/
def Isometry3.inverse (t : Isometry3) : Isometry3 :=
  { linear := star t.linear, translation := -(quatRotate (star t.linear) t.translation) }

/-- Eigen Transform * Quaternion: the quaternion rotation is composed onto
the linear part, the translation is unchanged. -/
def Isometry3.mulQuat (t : Isometry3) (q : Quaternion ℚ) : Isometry3 :=
  { linear := t.linear * q, translation := t.translation }

/-- Eigen Quaternion::inverse: the conjugate divided by the squared norm. -/
def qinv (q : Quaternion ℚ) : Quaternion ℚ :=
  (Quaternion.normSq q)⁻¹ • star q

/-- The g2o EdgeOrientationPrior: a unary edge on a VertexSE3 with a
quaternion measurement, a sensor pose, and a 3x3 information matrix. -/
structure EdgeOrientationPrior where
  measurement : Quaternion ℚ
  sensor_pose : Isometry3
  information : Matrix (Fin 3) (Fin 3) ℚ

/-- The EdgeOrientationPrior constructor: store the measurement and the
sensor pose and set the information matrix to identity. -/
def EdgeOrientationPrior.create (m : Quaternion ℚ) (s : Isometry3) : EdgeOrientationPrior :=
  { measurement := m, sensor_pose := s, information := 1 }

/-- EdgeOrientationPrior::computeError: the expected state is the rotation
of sensor_pose.inverse() * measurement, the error vector is the imaginary
part of expected_state.inverse() * current_state. -/
def computeError (e : EdgeOrientationPrior) (vertexEstimate : Isometry3) : Fin 3 → ℚ :=
  let current_state := vertexEstimate.linear
  let expIso := (e.sensor_pose.inverse).mulQuat e.measurement
  let expected_state := expIso.linear
  let err := qinv expected_state * current_state
  ![err.imI, err.imJ, err.imK]

end G2o

namespace Slam3d

/-- Concrete fixture: a configuration with every magnitude zero and GICP
selected. -/
def defaultParams : RegistrationParameters :=
  { point_cloud_density := 0, max_correspondence_distance := 0, maximum_iterations := 0,
    max_fitness_score := 0, transformation_epsilon := 0, euclidean_fitness_epsilon := 0,
    correspondence_randomness := 0, maximum_optimizer_iterations := 0, rotation_epsilon := 0,
    outlier_ratio := 0, step_size := 0, resolution := 0, registration_algorithm := .GICP }

/-- Concrete fixture: a 100-point cloud, every point at the origin. -/
def cloud100 : PointCloud := List.replicate 100 (fun _ => 0)

/-- Concrete fixture: an oracle that always converges with fitness 0 and
reports the identity transform. -/
def constICP : Registration :=
  fun _ _ => { finalTransformation := 1, converged := true, fitnessScore := 0 }

/-- Concrete fixture: an oracle that always converges with fitness 0 and
reports the guess it was called with. -/
def guessICP : Registration :=
  fun call _ => { finalTransformation := call.guess, converged := true, fitnessScore := 0 }

/-- Concrete fixture: parameters with downsampling enabled (leaf 1) and
max_fitness_score 1. -/
def cfgDense : RegistrationParameters :=
  { defaultParams with point_cloud_density := 1, max_fitness_score := 1 }

/-- Concrete fixture: parameters without downsampling and with
max_fitness_score 1. -/
def cfgPlain : RegistrationParameters :=
  { defaultParams with max_fitness_score := 1 }

/-- Concrete fixture: a sensor around the constant oracle and cfgDense. -/
def sensor2 : PointCloudSensor :=
  { mName := "pointcloud", mCoarseConfiguration := cfgDense, mFineConfiguration := cfgDense,
    mCovarianceScale := 1, mMapResolution := 1/10, mMapOutlierRadius := 1/5,
    mMapOutlierNeighbors := 3, gicpLibrary := constICP, ndtLibrary := constICP }

/-- Concrete fixture: a sensor with covariance scale 2 and no
downsampling. -/
def sensor4 : PointCloudSensor :=
  { sensor2 with
    mCoarseConfiguration := cfgPlain
    mFineConfiguration := cfgPlain
    mCovarianceScale := 2 }

/-- Concrete fixture: a sensor running the guess-returning oracle. -/
def sensor5 : PointCloudSensor :=
  { sensor2 with gicpLibrary := guessICP, ndtLibrary := guessICP }

/-- Concrete fixture: cloud100 at identity sensor pose. -/
def meas4 : PointCloudMeasurement := { cloud := cloud100, sensor_pose := 1 }

/-- The edge produced by the successful createConstraint call on sensor4
and meas4. -/
def c4Edge : SE3Constraint :=
  ((createConstraint sensor4 (.pointCloud meas4) (.pointCloud meas4) 1 false).toOption).getD
    { sensor := "", relativePose := 1, information := 0 }

/-- Concrete fixture: a single point-cloud vertex. -/
def vertex6 : VertexObject :=
  { corrected_pose := 1,
    measurement := .pointCloud { cloud := [fun _ => 0], sensor_pose := 1 } }

/-- Concrete fixture: an always-converging oracle for the older sensor. -/
def constOldICP : OldRegistration :=
  fun _ _ => { finalTransformation := 1, converged := true, fitnessScore := 0 }

/-- Concrete fixture: a GICPConfiguration with density 1 and
max_fitness_score 1. -/
def cfgOld : GICPConfiguration :=
  { point_cloud_density := 1, max_correspondence_distance := 0, maximum_iterations := 0,
    max_fitness_score := 1, transformation_epsilon := 0, euclidean_fitness_epsilon := 0,
    correspondence_randomness := 0, maximum_optimizer_iterations := 0, rotation_epsilon := 0 }

/-- The pair produced by the successful calculateTransform call on the
constant oracle and meas4. -/
def c1Twc : TransformWithCovariance :=
  ((calculateTransform constOldICP cfgOld cfgOld (.pointCloud meas4) (.pointCloud meas4)
      1 false).toOption).getD { transform := 1, covariance := 0 }

/-- The registration result an align run consults: the library selected by
the configured algorithm, applied at the switched call the run wires up. -/
def alignResult (sensor : PointCloudSensor) (src tgt : PointCloudMeasurement)
    (guess : Transform) (config : RegistrationParameters) : RegResult :=
  (if config.registration_algorithm = .GICP then sensor.gicpLibrary else sensor.ndtLibrary)
    { inputSource := tgt.cloud, inputTarget := src.cloud, guess := guess } config

end Slam3d

namespace G2o

/-- Concrete fixture: a unit quaternion (the rotation by pi around x) as a
sensor pose. -/
def iso10 : Isometry3 := { linear := ⟨0, 1, 0, 0⟩, translation := 0 }

/-- Concrete fixture: the vertex estimate whose rotation equals the
expected state of iso10 with the identity measurement. -/
def vertex10 : Isometry3 :=
  { linear := (star iso10.linear * 1 : Quaternion ℚ), translation := 0 }

end G2o

namespace Slam3d

/-- Helper: the adjugate-formula inverse of a scalar multiple of the 6x6
identity is the inverse scalar multiple of the identity. -/
theorem matInv_smul_one (s : ℚ) :
    matInv (s • (1 : Matrix (Fin 6) (Fin 6) ℚ)) = s⁻¹ • 1 := by
  unfold matInv
  by_cases hs : s = 0
  · subst hs
    simp
  · have hdet : (s • (1 : Matrix (Fin 6) (Fin 6) ℚ)).det = s ^ 6 := by
      rw [Matrix.det_smul, Matrix.det_one, mul_one, Fintype.card_fin]
    rw [if_neg (by rw [hdet]; exact pow_ne_zero 6 hs)]
    rw [hdet, Matrix.adjugate_smul, Matrix.adjugate_one, smul_smul]
    have hsc : (s ^ 6)⁻¹ * s ^ (Fintype.card (Fin 6) - 1) = s⁻¹ := by
      simp only [Fintype.card_fin]
      field_simp
      ring
    rw [hsc]

/-- C8: downsample and removeOutliers both map the empty cloud to the
empty cloud, for every leaf size, radius and neighbor count. -/
theorem preprocessing_empty_c8 :
    ∀ (leaf_size radius : ℚ) (min_neighbors : ℕ),
      downsample [] leaf_size = [] ∧ removeOutliers [] radius min_neighbors = [] :=
  fun _ _ _ => ⟨rfl, rfl⟩

/-- C9: buildMap is exactly the composition of accumulation, radius
outlier removal and voxel downsampling, with the map parameters of the
sensor. -/
theorem buildMap_c9 (sensor : PointCloudSensor) (vertices : List VertexObject) :
    buildMap sensor vertices = (getAccumulatedCloud vertices).map
      (fun accu => downsample
        (removeOutliers accu sensor.mMapOutlierRadius sensor.mMapOutlierNeighbors)
        sensor.mMapResolution) := by
  have hb : buildMap sensor vertices = (getAccumulatedCloud vertices).bind
      (fun accu => Except.ok (downsample
        (removeOutliers accu sensor.mMapOutlierRadius sensor.mMapOutlierNeighbors)
        sensor.mMapResolution)) := rfl
  rw [hb]
  cases getAccumulatedCloud vertices <;> rfl

/-- C7: accumulating two point-cloud vertices in either order succeeds,
and the two results carry the same multiset of points. -/
theorem getAccumulatedCloud_c7 (ca cb : PointCloud) (sa sb pa pb : Transform) :
    ∃ c1 c2,
      getAccumulatedCloud
          [{ corrected_pose := pa, measurement := .pointCloud { cloud := ca, sensor_pose := sa } },
           { corrected_pose := pb, measurement := .pointCloud { cloud := cb, sensor_pose := sb } }] =
        Except.ok c1 ∧
      getAccumulatedCloud
          [{ corrected_pose := pb, measurement := .pointCloud { cloud := cb, sensor_pose := sb } },
           { corrected_pose := pa, measurement := .pointCloud { cloud := ca, sensor_pose := sa } }] =
        Except.ok c2 ∧
      (c1 : Multiset Point) = (c2 : Multiset Point) := by
  refine ⟨_, _, rfl, rfl, ?_⟩
  rw [Multiset.coe_eq_coe]
  simp only [List.append_nil]
  exact List.perm_append_comm

/-- C5: both registration runs pass the pose-graph target as the library
source input and the pose-graph source as the library target input, and
each run consults its library exactly at that switched call. -/
theorem registration_roles_c5 (s t : PointCloud) (g : Transform) :
    (doICP_call s t g).inputSource = t ∧ (doICP_call s t g).inputTarget = s ∧
    (doNDT_call s t g).inputSource = t ∧ (doNDT_call s t g).inputTarget = s ∧
    (∀ (A B : PointCloudSensor) (config : RegistrationParameters),
        A.gicpLibrary (doICP_call s t g) config = B.gicpLibrary (doICP_call s t g) config →
        doICP A s t g config = doICP B s t g config) ∧
    (∀ (A B : PointCloudSensor) (config : RegistrationParameters),
        A.ndtLibrary (doNDT_call s t g) config = B.ndtLibrary (doNDT_call s t g) config →
        doNDT A s t g config = doNDT B s t g config) := by
  refine ⟨rfl, rfl, rfl, rfl, ?_, ?_⟩ <;> intro A B config h <;>
    simp only [doICP, doNDT, h]

/-- C5 witness: the locality part applied to two concrete sensors whose
oracles agree at the concrete switched call. -/
theorem registration_roles_c5_witness :
    doICP sensor2 cloud100 cloud100 1 cfgDense = doICP sensor5 cloud100 cloud100 1 cfgDense ∧
    doNDT sensor2 cloud100 cloud100 1 cfgDense = doNDT sensor5 cloud100 cloud100 1 cfgDense :=
  ⟨(registration_roles_c5 cloud100 cloud100 1).2.2.2.2.1 sensor2 sensor5 cfgDense rfl,
   (registration_roles_c5 cloud100 cloud100 1).2.2.2.2.2 sensor2 sensor5 cfgDense rfl⟩

/-- C1: createConstraint computes the sensor-frame guess
source.sensor_pose.inverse * odometry * target.sensor_pose, refines it by
the coarse alignment exactly when the loop flag is set (its result is the
fine guess), and wraps the fine result gf as
source.sensor_pose * gf * target.sensor_pose.inverse; the older
calculateTransform returns the same robot-frame shape around its
sensor-frame result final * guess. -/
theorem createConstraint_c1 (sensor : PointCloudSensor)
    (sm tm : PointCloudMeasurement) (o : Transform) :
    (createConstraint sensor (.pointCloud sm) (.pointCloud tm) o false =
      (align sensor sm tm (sm.sensor_pose.inverse * o * tm.sensor_pose)
          sensor.mFineConfiguration).bind
        (fun gf => Except.ok
          { sensor := sensor.mName
            relativePose := sm.sensor_pose * gf * tm.sensor_pose.inverse
            information := matInv (sensor.mCovarianceScale • 1) })) ∧
    (createConstraint sensor (.pointCloud sm) (.pointCloud tm) o true =
      (align sensor sm tm (sm.sensor_pose.inverse * o * tm.sensor_pose)
          sensor.mCoarseConfiguration).bind
        (fun gc => (align sensor sm tm gc sensor.mFineConfiguration).bind
          (fun gf => Except.ok
            { sensor := sensor.mName
              relativePose := sm.sensor_pose * gf * tm.sensor_pose.inverse
              information := matInv (sensor.mCovarianceScale • 1) }))) ∧
    (∀ c : RegistrationParameters,
      createConstraint { sensor with mCoarseConfiguration := c }
          (.pointCloud sm) (.pointCloud tm) o false =
        createConstraint sensor (.pointCloud sm) (.pointCloud tm) o false) ∧
    (∀ (lib : OldRegistration) (cc fc : GICPConfiguration) (coarse : Bool)
        (twc : TransformWithCovariance),
      calculateTransform lib cc fc (.pointCloud sm) (.pointCloud tm) o coarse = Except.ok twc →
      twc.transform = sm.sensor_pose *
        ((lib { inputSource := transform
                  (downsample tm.cloud ((if coarse then cc else fc).point_cloud_density))
                  (sm.sensor_pose.inverse * o * tm.sensor_pose)
                inputTarget := downsample sm.cloud ((if coarse then cc else fc).point_cloud_density)
                guess := 1 } (if coarse then cc else fc)).finalTransformation *
          (sm.sensor_pose.inverse * o * tm.sensor_pose)) * tm.sensor_pose.inverse) := by
  refine ⟨rfl, rfl, fun c => rfl, ?_⟩
  intro lib cc fc coarse twc h
  unfold calculateTransform at h
  dsimp only at h
  cases coarse
  case false =>
    simp only [if_neg Bool.false_ne_true] at h ⊢
    split at h
    · simp at h
    · injection h with h2
      subst h2
      rfl
  case true =>
    simp only [if_pos] at h ⊢
    split at h
    · simp at h
    · injection h with h2
      subst h2
      rfl

/-- C1 witness: the calculateTransform part applied at a concrete
successful call. -/
theorem createConstraint_c1_witness :
    c1Twc.transform =
      (1 : Transform) * ((1 : Transform) * (Transform.inverse 1 * 1 * 1)) * Transform.inverse 1 :=
  (createConstraint_c1 sensor2 meas4 meas4 1).2.2.2 constOldICP cfgOld cfgOld false c1Twc rfl

set_option maxRecDepth 4000 in
/-- C2: with point_cloud_density 1 the downsampled cloud has fewer than
100 points, yet align succeeds, because the block-local downsampled clouds
are shadowed and the unfiltered clouds reach both the size check and the
registration run. -/
theorem align_shadowed_downsample_c2 :
    (downsample cloud100 1).length < 100 ∧
    align sensor2 { cloud := cloud100, sensor_pose := 1 } { cloud := cloud100, sensor_pose := 1 }
      1 cfgDense = Except.ok 1 := by
  constructor
  · have hd : downsample cloud100 1 =
        (((List.replicate 100 ((fun _ => 0) : Point)).map (voxelKey 1)).dedup).map
          (fun k => centroid (cloud100.filter (fun p => decide (voxelKey 1 p = k)))) := rfl
    rw [hd, List.map_replicate, List.replicate_dedup (by norm_num)]
    norm_num
  · rfl

/-- Helper: an Except bind that returns ok factors through an ok
intermediate value. -/
theorem exceptBind_ok {α β : Type} (x : Except SlamError α) (f : α → Except SlamError β)
    (b : β) (hx : x >>= f = Except.ok b) : ∃ a, x = Except.ok a ∧ f a = Except.ok b := by
  cases x with
  | error e => exact absurd hx (by simp [Bind.bind, Except.bind])
  | ok a => exact ⟨a, rfl, hx⟩

/-- C3: align fails with NoMatch exactly when one of the clouds that reach
the registration run has fewer than 100 points, the run does not report
convergence, or its fitness score exceeds max_fitness_score; NoMatch is the
only failure it produces, and in every other case it returns the reported
transform. -/
theorem align_noMatch_iff_c3 (sensor : PointCloudSensor)
    (src tgt : PointCloudMeasurement) (guess : Transform)
    (config : RegistrationParameters) :
    ((∃ msg, align sensor src tgt guess config = Except.error (.noMatch msg)) ↔
      (tgt.cloud.length < 100 ∨ src.cloud.length < 100 ∨
        (alignResult sensor src tgt guess config).converged = false ∨
        (alignResult sensor src tgt guess config).fitnessScore > config.max_fitness_score)) ∧
    (∀ e, align sensor src tgt guess config = Except.error e →
      ∃ msg, e = SlamError.noMatch msg) ∧
    (¬(tgt.cloud.length < 100 ∨ src.cloud.length < 100 ∨
        (alignResult sensor src tgt guess config).converged = false ∨
        (alignResult sensor src tgt guess config).fitnessScore > config.max_fitness_score) →
      align sensor src tgt guess config =
        Except.ok (alignResult sensor src tgt guess config).finalTransformation) := by
  by_cases hsz : tgt.cloud.length < 100 ∨ src.cloud.length < 100
  · have ha : align sensor src tgt guess config = Except.error
        (.noMatch "Too few points after filtering, you may have to decrease point_cloud_density.") := by
      unfold align
      rw [if_pos hsz]
    refine ⟨⟨fun _ => ?_, fun _ => ⟨_, ha⟩⟩, ?_, ?_⟩
    · rcases hsz with h1 | h2
      exacts [Or.inl h1, Or.inr (Or.inl h2)]
    · intro e he
      rw [ha] at he
      injection he.symm with h
      exact ⟨_, h⟩
    · intro hnot
      exact absurd (hsz.elim Or.inl (fun h => Or.inr (Or.inl h))) hnot
  · have hgate : align sensor src tgt guess config =
        if (alignResult sensor src tgt guess config).converged = false ∨
           (alignResult sensor src tgt guess config).fitnessScore > config.max_fitness_score then
          Except.error (.noMatch (if config.registration_algorithm = .GICP then
            "ICP failed with Fitness-Score above max_fitness_score"
          else
            "NDT failed with Fitness-Score above max_fitness_score"))
        else Except.ok (alignResult sensor src tgt guess config).finalTransformation := by
      unfold align doICP doNDT doICP_call doNDT_call alignResult
      rw [if_neg hsz]
      by_cases halg : config.registration_algorithm = .GICP
      · simp only [if_pos halg]
      · simp only [if_neg halg]
    by_cases hc : (alignResult sensor src tgt guess config).converged = false ∨
        (alignResult sensor src tgt guess config).fitnessScore > config.max_fitness_score
    · have ha : align sensor src tgt guess config = Except.error
          (.noMatch (if config.registration_algorithm = .GICP then
            "ICP failed with Fitness-Score above max_fitness_score"
          else
            "NDT failed with Fitness-Score above max_fitness_score")) := by
        rw [hgate, if_pos hc]
      refine ⟨⟨fun _ => Or.inr (Or.inr hc), fun _ => ⟨_, ha⟩⟩, ?_, ?_⟩
      · intro e he
        rw [ha] at he
        injection he.symm with h
        exact ⟨_, h⟩
      · intro hnot
        exact absurd (Or.inr (Or.inr hc)) hnot
    · have ha : align sensor src tgt guess config =
          Except.ok (alignResult sensor src tgt guess config).finalTransformation := by
        rw [hgate, if_neg hc]
      refine ⟨⟨?_, ?_⟩, ?_, fun _ => ha⟩
      · rintro ⟨msg, hmsg⟩
        rw [ha] at hmsg
        exact Except.noConfusion hmsg
      · intro hfail
        rcases hfail with h | h | h | h
        · exact absurd (Or.inl h) hsz
        · exact absurd (Or.inr h) hsz
        · exact absurd (Or.inl h) hc
        · exact absurd (Or.inr h) hc
      · intro e he
        rw [ha] at he
        exact Except.noConfusion he

set_option maxRecDepth 100000 in
/-- C3 witness: the success branch at a concrete converging run. -/
theorem align_noMatch_iff_c3_witness :
    align sensor4 meas4 meas4 1 cfgPlain = Except.ok 1 :=
  (align_noMatch_iff_c3 sensor4 meas4 meas4 1 cfgPlain).2.2 (by
    rintro (h | h | h | h)
    · norm_num [meas4, cloud100] at h
    · norm_num [meas4, cloud100] at h
    · norm_num [alignResult, sensor4, sensor2, cfgPlain, defaultParams, constICP] at h
    · norm_num [alignResult, sensor4, sensor2, cfgPlain, defaultParams, constICP] at h)

/-- Helper: the matrix a successful createConstraint call stores in the
constraint is the inverse of the scaled identity covariance. -/
theorem createConstraint_information (sensor : PointCloudSensor)
    (source target : Measurement) (o : Transform) (loop : Bool)
    (c : SE3Constraint)
    (h : createConstraint sensor source target o loop = Except.ok c) :
    c.information = sensor.mCovarianceScale⁻¹ • 1 := by
  cases source with
  | other sp => simp [createConstraint] at h
  | pointCloud sm =>
    cases target with
    | other tp => simp [createConstraint] at h
    | pointCloud tm =>
      unfold createConstraint at h
      dsimp only at h
      cases loop with
      | false =>
        simp only [if_neg Bool.false_ne_true] at h
        obtain ⟨g1, hg1, h2⟩ := exceptBind_ok _ _ _ h
        obtain ⟨g2, hg2, h3⟩ := exceptBind_ok _ _ _ h2
        injection h3 with h4
        subst h4
        exact matInv_smul_one sensor.mCovarianceScale
      | true =>
        simp only [if_pos] at h
        obtain ⟨g1, hg1, h2⟩ := exceptBind_ok _ _ _ h
        obtain ⟨g2, hg2, h3⟩ := exceptBind_ok _ _ _ h2
        injection h3 with h4
        subst h4
        exact matInv_smul_one sensor.mCovarianceScale

set_option maxRecDepth 8000 in
/-- C4 counterexample: a successful createConstraint call with covariance
scale 2 whose returned edge does not carry the identity scaled by the
covariance scale. -/
theorem createConstraint_c4_counterexample :
    createConstraint sensor4 (.pointCloud meas4) (.pointCloud meas4) 1 false = Except.ok c4Edge ∧
    sensor4.mCovarianceScale = 2 ∧
    c4Edge.information ≠ sensor4.mCovarianceScale • 1 := by
  refine ⟨rfl, rfl, ?_⟩
  have h1 : c4Edge.information = sensor4.mCovarianceScale⁻¹ • 1 :=
    createConstraint_information sensor4 (.pointCloud meas4) (.pointCloud meas4) 1 false
      c4Edge rfl
  rw [h1, show sensor4.mCovarianceScale = (2 : ℚ) from rfl]
  intro h
  have h2 := congrFun (congrFun h 0) 0
  simp only [Matrix.smul_apply, Matrix.one_apply_eq, smul_eq_mul, mul_one] at h2
  norm_num at h2

/-- C4 (amended): every successful createConstraint call attaches the
inverse of the scaled identity covariance, the matrix
mCovarianceScale inverse times the identity, the covariance having been
inverted at constraint creation. -/
theorem createConstraint_c4_information (sensor : PointCloudSensor)
    (source target : Measurement) (o : Transform) (loop : Bool)
    (c : SE3Constraint)
    (h : createConstraint sensor source target o loop = Except.ok c) :
    c.information = sensor.mCovarianceScale⁻¹ • 1 :=
  createConstraint_information sensor source target o loop c h

set_option maxRecDepth 8000 in
/-- C4 witness: the amended statement at a concrete successful call. -/
theorem createConstraint_c4_witness :
    c4Edge.information = ((2 : ℚ))⁻¹ • (1 : Matrix (Fin 6) (Fin 6) ℚ) :=
  createConstraint_c4_information sensor4 (.pointCloud meas4) (.pointCloud meas4) 1 false
    c4Edge rfl

/-- Helper: when every vertex carries a point cloud, the accumulation loop
returns the concatenation of the transformed clouds. -/
theorem accumulateLoop_ok (l : List VertexObject)
    (h : ∀ v ∈ l, v.measurement.isPointCloud = true) :
    accumulateLoop l = Except.ok
      ((l.map fun v =>
        transform v.measurement.cloudOrEmpty
          (v.corrected_pose * v.measurement.sensorPose)).flatten) := by
  induction l with
  | nil => rfl
  | cons v rest ih =>
    obtain ⟨cp, mm⟩ := v
    cases mm with
    | pointCloud pc =>
      have hrest := ih (fun w hw => h w (List.mem_cons_of_mem _ hw))
      have hstep : accumulateLoop
          (({ corrected_pose := cp, measurement := .pointCloud pc } : VertexObject) :: rest) =
          (accumulateLoop rest).bind
            (fun r => Except.ok (transform pc.cloud (cp * pc.sensor_pose) ++ r)) := rfl
      rw [hstep, hrest]
      rfl
    | other sp =>
      have hv := h _ (List.mem_cons_self _ _)
      simp [Measurement.isPointCloud] at hv

/-- Helper: a non-point-cloud vertex anywhere in the list makes the
accumulation loop throw BadMeasurementType. -/
theorem accumulateLoop_error (l : List VertexObject)
    (h : ∃ v ∈ l, v.measurement.isPointCloud = false) :
    accumulateLoop l = Except.error .badMeasurementType := by
  induction l with
  | nil => simp at h
  | cons v rest ih =>
    obtain ⟨cp, mm⟩ := v
    cases mm with
    | other sp => rfl
    | pointCloud pc =>
      have hmem : ∃ w ∈ rest, w.measurement.isPointCloud = false := by
        obtain ⟨w, hw, hbad⟩ := h
        rcases List.mem_cons.mp hw with hEq | hmem
        · subst hEq
          simp [Measurement.isPointCloud] at hbad
        · exact ⟨w, hmem, hbad⟩
      have hstep : accumulateLoop
          (({ corrected_pose := cp, measurement := .pointCloud pc } : VertexObject) :: rest) =
          (accumulateLoop rest).bind
            (fun r => Except.ok (transform pc.cloud (cp * pc.sensor_pose) ++ r)) := rfl
      rw [hstep, ih hmem]
      rfl

/-- C6: getAccumulatedCloud fails with BadMeasurementType exactly when some
vertex carries a measurement that is not a point cloud, and otherwise
returns the concatenation (in the reverse vertex order the source
iterates) of every cloud transformed by corrected_pose * sensor_pose. -/
theorem getAccumulatedCloud_c6 (vertices : List VertexObject) :
    (getAccumulatedCloud vertices = Except.error .badMeasurementType ↔
      ∃ v ∈ vertices, v.measurement.isPointCloud = false) ∧
    ((∀ v ∈ vertices, v.measurement.isPointCloud = true) →
      getAccumulatedCloud vertices = Except.ok
        ((vertices.reverse.map fun v =>
          transform v.measurement.cloudOrEmpty
            (v.corrected_pose * v.measurement.sensorPose)).flatten)) := by
  constructor
  · constructor
    · intro h
      by_contra hno
      push_neg at hno
      have hok := accumulateLoop_ok vertices.reverse (fun v hv =>
        Bool.ne_false_iff.mp (hno v (List.mem_reverse.mp hv)))
      rw [getAccumulatedCloud, hok] at h
      exact Except.noConfusion h
    · intro h
      obtain ⟨v, hv, hbad⟩ := h
      exact accumulateLoop_error _ ⟨v, List.mem_reverse.mpr hv, hbad⟩
  · intro hall
    exact accumulateLoop_ok _ (fun v hv => hall v (List.mem_reverse.mp hv))

/-- C6 witness: the success branch at the singleton fixture. -/
theorem getAccumulatedCloud_c6_witness :
    getAccumulatedCloud [vertex6] =
      Except.ok (transform [(fun _ => 0 : Point)] ((1 : Transform) * 1) ++ []) :=
  (getAccumulatedCloud_c6 [vertex6]).2 (by
    intro v hv
    rw [List.mem_singleton] at hv
    subst hv
    rfl)

end Slam3d

namespace G2o

/-- C10: the orientation-prior edge is constructed with the 3x3 identity
information matrix, its error vector is the imaginary part of
expected_state.inverse() * current_state where the expected state is the
rotation of sensor_pose.inverse() * measurement, and the error vanishes at
a vertex whose rotation equals the expected state. -/
theorem edgeOrientationPrior_c10 (m : Quaternion ℚ) (s v : Isometry3) :
    (EdgeOrientationPrior.create m s).information = 1 ∧
    computeError (EdgeOrientationPrior.create m s) v =
      ![(qinv (star s.linear * m) * v.linear).imI,
        (qinv (star s.linear * m) * v.linear).imJ,
        (qinv (star s.linear * m) * v.linear).imK] ∧
    (Quaternion.normSq s.linear = 1 → Quaternion.normSq m = 1 →
      v.linear = star s.linear * m →
      computeError (EdgeOrientationPrior.create m s) v = 0) := by
  refine ⟨rfl, rfl, ?_⟩
  intro hs hm hv
  have hqe : Quaternion.normSq (star s.linear * m) = 1 := by
    rw [map_mul, Quaternion.normSq_star, hs, hm, one_mul]
  have herr : qinv (star s.linear * m) * v.linear = 1 := by
    rw [hv, qinv, smul_mul_assoc, Quaternion.star_mul_self, hqe]
    norm_num
  have hgoal : computeError (EdgeOrientationPrior.create m s) v =
      ![(qinv (star s.linear * m) * v.linear).imI,
        (qinv (star s.linear * m) * v.linear).imJ,
        (qinv (star s.linear * m) * v.linear).imK] := rfl
  rw [hgoal, herr]
  funext i
  fin_cases i <;> simp

/-- C10 witness: the zero-error part at a concrete unit sensor rotation and
identity measurement. -/
theorem edgeOrientationPrior_c10_witness :
    computeError (EdgeOrientationPrior.create 1 iso10) vertex10 = 0 :=
  (edgeOrientationPrior_c10 1 iso10 vertex10).2.2
    (by simp [iso10, Quaternion.normSq_def'])
    (by simp)
    rfl

end G2o
